import Mathlib

/-!
# Verification of the prosody-coach analysis core

A shallow embedding of `src/analyzer.py` (and the constants of
`src/config.py`) from the prosody-coach repository, together with proofs
of the behavioural claims about the five analyzers and the aggregator.

Modelling conventions:
* Python floats are modelled by exact rationals (`ℚ`); float rounding
  error is out of scope of the embedding.
* `numpy` helpers (`np.min`, `np.max`, `np.mean`, `np.std`,
  `np.percentile`) are modelled over `List ℚ` with numpy's documented
  semantics (population standard deviation, linear-interpolation
  percentile).  `math`/`numpy` square root has no exact rational value in
  general; `ratSqrt` below is the rational stand-in (exact on perfect
  squares).  No theorem depends on the value of a square root.
* The external Praat/parselmouth objects are modelled by the data the
  analyzers read from them: the F0 frame array (`List ℚ`) and an
  intensity contour queryable by time (`IntensityContour`), where a
  `none` answer models Praat's `None`/NaN samples that the resampling
  loops skip.
* Python `int(x)` is truncation toward zero (`pyTrunc`); Python
  `round(x, n)` is round-half-to-even (`pyRound`).
* Feedback strings are selected from fixed templates; the embedding
  records which template each branch selects (an inductive per
  analyzer), since no claim depends on string formatting.
-/

/-- Python `int(x)`: truncation toward zero. -/
def pyTrunc (q : ℚ) : ℤ := if q < 0 then ⌈q⌉ else ⌊q⌋

/-- Round-half-to-even to an integer, as Python's builtin `round`. -/
def roundHalfEven (q : ℚ) : ℤ :=
  let f := ⌊q⌋
  let r := q - (f : ℚ)
  if r < 1/2 then f
  else if 1/2 < r then f + 1
  else if f % 2 = 0 then f else f + 1

/-- Python `round(x, k)` for `k ≥ 0` digits (banker's rounding). -/
def pyRound (q : ℚ) (k : ℕ) : ℚ := (roundHalfEven (q * 10 ^ k) : ℚ) / 10 ^ k

/-- Rational stand-in for the real square root used by `np.std`:
`sqrt (a / b) = sqrt (a * b) / b`, computed with the integer square root,
hence exact whenever `a * b` is a perfect square.  No theorem below
depends on its value at other points. -/
def ratSqrt (q : ℚ) : ℚ :=
  if q ≤ 0 then 0 else ((Nat.sqrt (q.num.toNat * q.den) : ℤ) : ℚ) / (q.den : ℚ)

/-- `np.min` of a nonempty array (0 on `[]`, which every caller guards). -/
def npMin : List ℚ → ℚ
  | [] => 0
  | h :: t => t.foldl min h

/-- `np.max` of a nonempty array (0 on `[]`, which every caller guards). -/
def npMax : List ℚ → ℚ
  | [] => 0
  | h :: t => t.foldl max h

/-- `np.mean` (callers guard against the empty list; `ℚ` gives `0/0 = 0`). -/
def npMean (l : List ℚ) : ℚ := l.sum / (l.length : ℚ)

/-- `np.var` with `ddof = 0`: the population variance. -/
def npVar (l : List ℚ) : ℚ :=
  ((l.map (fun x => (x - npMean l) ^ 2)).sum) / (l.length : ℚ)

/-- `np.std` with `ddof = 0` (population), via `ratSqrt`. -/
def npStd (l : List ℚ) : ℚ := ratSqrt (npVar l)

/-- Insert into an ascending-sorted list (the sort behind `np.percentile`). -/
def insertAsc (x : ℚ) : List ℚ → List ℚ
  | [] => [x]
  | y :: ys => if x ≤ y then x :: y :: ys else y :: insertAsc x ys

/-- Ascending insertion sort, modelling numpy's sort inside `np.percentile`. -/
def sortAsc (l : List ℚ) : List ℚ := l.foldr insertAsc []

/-- `np.percentile(l, q)` with the default linear-interpolation method:
rank `q/100 * (n-1)`, linear interpolation between the two neighbouring
order statistics. -/
def npPercentile (l : List ℚ) (q : ℚ) : ℚ :=
  let s := sortAsc l
  let n := s.length
  if n = 0 then 0
  else
    let rank := q / 100 * ((n : ℚ) - 1)
    let k := (⌊rank⌋).toNat
    let d := rank - (k : ℚ)
    let a := s.getD k 0
    let b := s.getD (k + 1) a
    a + d * (b - a)

/-! ## Configuration (`src/config.py`) -/

structure PitchConfig where
  min_target : ℚ
  max_target : ℚ
  good_range : ℚ
  excellent_range : ℚ
deriving DecidableEq

def PITCH_CONFIG : PitchConfig :=
  { min_target := 75, max_target := 250, good_range := 100, excellent_range := 150 }

structure VolumeConfig where
  good_contrast_db : ℚ
  excellent_contrast_db : ℚ
  min_dynamic_range : ℚ
deriving DecidableEq

def VOLUME_CONFIG : VolumeConfig :=
  { good_contrast_db := 6, excellent_contrast_db := 10, min_dynamic_range := 15 }

structure TempoConfig where
  min_wpm : ℚ
  max_wpm : ℚ
  ideal_wpm : ℚ
  good_variation : ℚ
  excellent_variation : ℚ
deriving DecidableEq

def TEMPO_CONFIG : TempoConfig :=
  { min_wpm := 100, max_wpm := 180, ideal_wpm := 140,
    good_variation := 15, excellent_variation := 25 }

structure RhythmConfig where
  spanish_typical : ℚ
  english_target : ℚ
  english_native : ℚ
deriving DecidableEq

def RHYTHM_CONFIG : RhythmConfig :=
  { spanish_typical := 40, english_target := 55, english_native := 65 }

structure PauseConfig where
  min_pause_duration : ℚ
  ideal_pause_duration : ℚ
  max_pause_duration : ℚ
  good_pause_rate : ℚ
  excellent_pause_rate : ℚ
deriving DecidableEq

def PAUSE_CONFIG : PauseConfig :=
  { min_pause_duration := 0.2, ideal_pause_duration := 0.5,
    max_pause_duration := 2.0, good_pause_rate := 3, excellent_pause_rate := 5 }

/-! ## External-contour model -/

/-- The intensity object produced by Praat's `To Intensity`, as read by the
analyzers: start/end times, its own time step (used by `analyze_volume`),
and a query `valueAt` modelling `Get value at time (cubic)`, where `none`
models a `None`/NaN answer that the resampling loops skip. -/
structure IntensityContour where
  startTime : ℚ
  endTime : ℚ
  timeStep : ℚ
  valueAt : ℚ → Option ℚ

/-- The time grid of the resampling loops
(`t = start; while t <= end: ...; t += step`), exact over `ℚ`:
`start, start+step, …` up to `end`.  Empty when the range is reversed or
the step is not positive (a nonpositive step would not terminate; the
external contract guarantees a positive step). -/
def sampleTimes (start stop step : ℚ) : List ℚ :=
  if 0 < step ∧ start ≤ stop then
    (List.range ((⌊(stop - start) / step⌋).toNat + 1)).map
      (fun k : ℕ => start + (k : ℚ) * step)
  else []

/-- The `(times, intensity_values)` arrays built by each analyzer's
resampling loop: query every grid time, keep the valid (non-`None`,
non-NaN) samples with their times. -/
def resample (c : IntensityContour) (step : ℚ) : List (ℚ × ℚ) :=
  (sampleTimes c.startTime c.endTime step).filterMap
    (fun t => (c.valueAt t).map (fun v => (t, v)))

/-! ## Pitch analyzer (`analyze_pitch`) -/

/-- Which of the fixed pitch feedback templates is selected. -/
inductive PitchFeedback where
  | noVoiced | veryMonotone | limitedVariation | goodRange | excellent
deriving DecidableEq

structure PitchAnalysis where
  score : ℤ
  min_hz : ℚ
  max_hz : ℚ
  mean_hz : ℚ
  range_hz : ℚ
  std_hz : ℚ
  feedback : PitchFeedback
deriving DecidableEq

/-- The voiced frames: `pitch_values[pitch_values > 0]`. -/
def voicedValues (pitch_values : List ℚ) : List ℚ :=
  pitch_values.filter (fun v => 0 < v)

/-- The four-segment piecewise pitch score before the final clamp. -/
def pitchRawScore (range_hz : ℚ) : ℤ :=
  if PITCH_CONFIG.excellent_range ≤ range_hz then 10
  else if PITCH_CONFIG.good_range ≤ range_hz then
    7 + pyTrunc ((range_hz - PITCH_CONFIG.good_range) /
        (PITCH_CONFIG.excellent_range - PITCH_CONFIG.good_range) * 3)
  else if 50 ≤ range_hz then
    4 + pyTrunc ((range_hz - 50) / (PITCH_CONFIG.good_range - 50) * 3)
  else max 1 (pyTrunc (range_hz / 50 * 4))

def pitchFeedbackOf (range_hz : ℚ) : PitchFeedback :=
  if range_hz < 50 then .veryMonotone
  else if range_hz < PITCH_CONFIG.good_range then .limitedVariation
  else if range_hz < PITCH_CONFIG.excellent_range then .goodRange
  else .excellent

def analyze_pitch (pitch_values : List ℚ) : PitchAnalysis :=
  let voiced := voicedValues pitch_values
  if voiced = [] then
    { score := 1, min_hz := 0, max_hz := 0, mean_hz := 0, range_hz := 0,
      std_hz := 0, feedback := .noVoiced }
  else
    let min_hz := npMin voiced
    let max_hz := npMax voiced
    let mean_hz := npMean voiced
    let range_hz := max_hz - min_hz
    let std_hz := npStd voiced
    { score := min 10 (max 1 (pitchRawScore range_hz)),
      min_hz := pyRound min_hz 1,
      max_hz := pyRound max_hz 1,
      mean_hz := pyRound mean_hz 1,
      range_hz := pyRound range_hz 1,
      std_hz := pyRound std_hz 1,
      feedback := pitchFeedbackOf range_hz }

/-! ## Volume analyzer (`analyze_volume`) -/

inductive VolumeFeedback where
  | noData | veryFlat | lowContrast | goodVariation | excellent
deriving DecidableEq

structure VolumeAnalysis where
  score : ℤ
  min_db : ℚ
  max_db : ℚ
  mean_db : ℚ
  dynamic_range_db : ℚ
  stress_contrast_db : ℚ
  feedback : VolumeFeedback
deriving DecidableEq

/-- The intensity samples collected by `analyze_volume`'s resampling loop
(the loop uses the intensity object's own time step). -/
def volumeVals (c : IntensityContour) : List ℚ :=
  (resample c c.timeStep).map Prod.snd

/-- The silence-rejection stage: keep samples above 40 dB; if fewer than
10 survive, relax the floor to the 20th percentile of all samples; if the
result is empty, fall back to the full sample set. -/
def speechValues (vals : List ℚ) : List ℚ :=
  let s1 := vals.filter (fun v => 40 < v)
  let s2 := if s1.length < 10
    then vals.filter (fun v => npPercentile vals 20 < v)
    else s1
  if s2.length = 0 then vals else s2

/-- `stress_contrast_db = q75 - q25` over the speech samples. -/
def stressContrast (vals : List ℚ) : ℚ :=
  npPercentile (speechValues vals) 75 - npPercentile (speechValues vals) 25

/-- The four-segment piecewise volume score before the final clamp. -/
def volumeRawScore (stress : ℚ) : ℤ :=
  if VOLUME_CONFIG.excellent_contrast_db ≤ stress then 10
  else if VOLUME_CONFIG.good_contrast_db ≤ stress then
    7 + pyTrunc ((stress - VOLUME_CONFIG.good_contrast_db) /
        (VOLUME_CONFIG.excellent_contrast_db - VOLUME_CONFIG.good_contrast_db) * 3)
  else if 3 ≤ stress then
    4 + pyTrunc ((stress - 3) / (VOLUME_CONFIG.good_contrast_db - 3) * 3)
  else max 1 (pyTrunc (stress / 3 * 4))

def volumeFeedbackOf (stress : ℚ) : VolumeFeedback :=
  if stress < 3 then .veryFlat
  else if stress < VOLUME_CONFIG.good_contrast_db then .lowContrast
  else if stress < VOLUME_CONFIG.excellent_contrast_db then .goodVariation
  else .excellent

def analyze_volume (c : IntensityContour) : VolumeAnalysis :=
  let vals := volumeVals c
  if vals.length = 0 then
    { score := 1, min_db := 0, max_db := 0, mean_db := 0,
      dynamic_range_db := 0, stress_contrast_db := 0, feedback := .noData }
  else
    let speech := speechValues vals
    let min_db := npPercentile speech 5
    let max_db := npPercentile speech 95
    let mean_db := npMean speech
    let stress := stressContrast vals
    { score := min 10 (max 1 (volumeRawScore stress)),
      min_db := pyRound min_db 1,
      max_db := pyRound max_db 1,
      mean_db := pyRound mean_db 1,
      dynamic_range_db := pyRound (max_db - min_db) 1,
      stress_contrast_db := pyRound stress 1,
      feedback := volumeFeedbackOf stress }

/-! ## `scipy.signal.find_peaks` model

Tempo and Rhythm share Praat-free peak detection via
`scipy.signal.find_peaks(x, distance, height, prominence)`.  The model
follows scipy's algorithm: local maxima with plateau midpoints, then the
height filter, then the distance filter (greedy from the highest peak),
then the prominence filter. -/

/-- First index `j ≥ i` with `j = iMax` or `xs[j] ≠ v` (scipy's
plateau scan); the first argument is fuel. -/
def plateauEnd (xs : List ℚ) (v : ℚ) (iMax : ℕ) : ℕ → ℕ → ℕ
  | 0, i => i
  | fuel + 1, i =>
    if i < iMax ∧ xs.getD i 0 = v then plateauEnd xs v iMax fuel (i + 1) else i

/-- scipy `_local_maxima_1d`: scan `i` from 1 while `i < n-1`; on a strict
rise, skip the plateau; if the far side falls, record the plateau
midpoint and resume after the plateau.  The first argument is fuel. -/
def localMaxLoop (xs : List ℚ) (iMax : ℕ) : ℕ → ℕ → List ℕ
  | 0, _ => []
  | fuel + 1, i =>
    if iMax ≤ i then []
    else if xs.getD (i - 1) 0 < xs.getD i 0 then
      let ia := plateauEnd xs (xs.getD i 0) iMax iMax (i + 1)
      if xs.getD ia 0 < xs.getD i 0 then
        (i + (ia - 1)) / 2 :: localMaxLoop xs iMax fuel (ia + 1)
      else localMaxLoop xs iMax fuel (i + 1)
    else localMaxLoop xs iMax fuel (i + 1)

/-- All inner local maxima of a sequence (plateaus yield their midpoint). -/
def localMaxima (xs : List ℚ) : List ℕ :=
  localMaxLoop xs (xs.length - 1) xs.length 1

/-- Ascending stable insertion into a list of `(position, priority)`
pairs, ordered by priority. -/
def insertByPrio (x : ℕ × ℚ) : List (ℕ × ℚ) → List (ℕ × ℚ)
  | [] => [x]
  | y :: ys => if x.2 < y.2 then x :: y :: ys else y :: insertByPrio x ys

/-- One step of scipy `_select_by_peak_distance`: if position `j` is still
kept, drop every other position whose peak is closer than `d` samples. -/
def sbpdStep (peaks : List ℕ) (d : ℕ) (keep : List Bool) (j : ℕ) : List Bool :=
  if keep.getD j false then
    (List.range keep.length).map (fun k =>
      if k ≠ j ∧ ((peaks.getD k 0 : ℤ) - (peaks.getD j 0 : ℤ)).natAbs < d then
        false
      else keep.getD k false)
  else keep

/-- scipy `_select_by_peak_distance`: process peaks from the highest
priority downward, each surviving peak evicting all others within
`distance` samples.  (Equal priorities are ordered stably by position; the
reference implementation leaves that tie unspecified.) -/
def selectByPeakDistance (peaks : List ℕ) (priority : List ℚ) (d : ℕ) : List Bool :=
  let order := ((List.range peaks.length).map
      (fun k => (k, priority.getD k 0))).foldr insertByPrio []
  (order.reverse.map Prod.fst).foldl (sbpdStep peaks d)
    (List.replicate peaks.length true)

/-- Walk left from `i` while `xs[·] ≤ x`, tracking the running minimum
(scipy `_peak_prominences`, left side). -/
def promLeftMin (xs : List ℚ) (x : ℚ) : ℕ → ℚ → ℚ
  | 0, acc => if xs.getD 0 0 ≤ x then min acc (xs.getD 0 0) else acc
  | i + 1, acc =>
    if xs.getD (i + 1) 0 ≤ x then promLeftMin xs x i (min acc (xs.getD (i + 1) 0))
    else acc

/-- Walk right from `i` to `n-1` while `xs[·] ≤ x`, tracking the running
minimum; the first argument is fuel. -/
def promRightMin (xs : List ℚ) (x : ℚ) (n : ℕ) : ℕ → ℕ → ℚ → ℚ
  | 0, _, acc => acc
  | fuel + 1, i, acc =>
    if i < n ∧ xs.getD i 0 ≤ x then
      promRightMin xs x n fuel (i + 1) (min acc (xs.getD i 0))
    else acc

/-- scipy `_peak_prominences` of one peak (no `wlen` window). -/
def promOfPeak (xs : List ℚ) (peak : ℕ) : ℚ :=
  let x := xs.getD peak 0
  let leftMin := promLeftMin xs x peak x
  let rightMin := promRightMin xs x xs.length xs.length peak x
  x - max leftMin rightMin

/-- `scipy.signal.find_peaks(xs, distance, height, prominence)`:
returns the surviving peak indices in ascending order. -/
def findPeaks (xs : List ℚ) (distance : ℕ) (height : Option ℚ)
    (prominence : Option ℚ) : List ℕ :=
  let p0 := localMaxima xs
  let p1 := match height with
    | some h => p0.filter (fun p => h ≤ xs.getD p 0)
    | none => p0
  let keep := selectByPeakDistance p1 (p1.map (fun p => xs.getD p 0)) distance
  let p2 := ((List.range p1.length).filter (fun k => keep.getD k false)).map
    (fun k => p1.getD k 0)
  match prominence with
  | some pm => p2.filter (fun p => pm ≤ promOfPeak xs p)
  | none => p2

/-! ## Tempo analyzer (`analyze_tempo`) -/

inductive TempoPace where
  | tooSlow | tooFast | goodPace
deriving DecidableEq

inductive TempoRemark where
  | tooConstant | goodSpeedVariation
deriving DecidableEq

inductive TempoFeedback where
  | tooShort
  | parts (pace : TempoPace) (remark : Option TempoRemark)
deriving DecidableEq

structure TempoAnalysis where
  score : ℤ
  syllables_per_second : ℚ
  estimated_wpm : ℚ
  variation_percent : ℚ
  feedback : TempoFeedback
deriving DecidableEq

/-- `np.diff` of a time sequence (consecutive differences). -/
def diffs : List ℚ → List ℚ
  | a :: b :: rest => (b - a) :: diffs (b :: rest)
  | _ => []

/-- The intensity samples collected by `analyze_tempo`'s 10 ms
resampling loop. -/
def tempoSamples (c : IntensityContour) : List (ℚ × ℚ) := resample c 0.01

/-- Tempo's syllable nuclei: `find_peaks` with 100 ms spacing, the 30th
percentile as height floor, and `0.15 × std` as prominence floor. -/
def tempoPeaks (c : IntensityContour) : List ℕ :=
  findPeaks ((tempoSamples c).map Prod.snd) 10
    (some (npPercentile ((tempoSamples c).map Prod.snd) 30))
    (some (npStd ((tempoSamples c).map Prod.snd) * 0.15))

/-- The times of tempo's detected nuclei. -/
def tempoPeakTimes (c : IntensityContour) : List ℚ :=
  (tempoPeaks c).map (fun p => ((tempoSamples c).map Prod.fst).getD p 0)

/-- `syllables_per_second = syllable_count / duration` (0 when the
duration is not positive), with `duration = end_time - start_time`. -/
def tempoSps (c : IntensityContour) : ℚ :=
  if 0 < c.endTime - c.startTime then
    ((tempoPeaks c).length : ℚ) / (c.endTime - c.startTime)
  else 0

/-- `estimated_wpm = syllables_per_second * 60 / 1.4`. -/
def tempoWpm (c : IntensityContour) : ℚ := tempoSps c * 60 / 1.4

/-- Inter-nucleus gaps kept for the variation measure: `[0.1 s, 0.6 s]`. -/
def tempoSpeechIntervals (c : IntensityContour) : List ℚ :=
  (diffs (tempoPeakTimes c)).filter (fun d => 0.1 ≤ d ∧ d ≤ 0.6)

/-- Coefficient of variation of the speech intervals, as a percentage
capped at 100 (0 unless more than 2 intervals survive). -/
def tempoVariation (c : IntensityContour) : ℚ :=
  if 2 < (tempoSpeechIntervals c).length then
    min (npStd (tempoSpeechIntervals c) / npMean (tempoSpeechIntervals c) * 100) 100
  else 0

/-- The WPM sub-score together with the `wpm_in_range` flag. -/
def wpmSubScore (wpm : ℚ) : ℤ × Bool :=
  if wpm < TEMPO_CONFIG.min_wpm then
    (max 2 (pyTrunc (wpm / TEMPO_CONFIG.min_wpm * 6)), false)
  else if TEMPO_CONFIG.max_wpm < wpm then
    (max 2 (8 - pyTrunc ((wpm - TEMPO_CONFIG.max_wpm) / 15)), false)
  else
    (max 7 (10 - pyTrunc (|wpm - TEMPO_CONFIG.ideal_wpm| / 20)), true)

/-- The bucketed variation sub-score. -/
def variationSubScore (variation : ℚ) : ℤ :=
  if TEMPO_CONFIG.excellent_variation ≤ variation then 10
  else if TEMPO_CONFIG.good_variation ≤ variation then 7
  else if 5 ≤ variation then 5
  else 3

/-- Final tempo score: truncate the 70/30 blend, cap at 7 when the WPM
was out of range, clamp to `[1, 10]`. -/
def tempoScoreOf (wpm variation : ℚ) : ℤ :=
  let blend := pyTrunc (((wpmSubScore wpm).1 : ℚ) * 0.7 + (variationSubScore variation : ℚ) * 0.3)
  let capped := if (wpmSubScore wpm).2 then blend else min blend 7
  min 10 (max 1 capped)

def tempoFeedbackOf (wpm variation : ℚ) : TempoFeedback :=
  .parts
    (if wpm < TEMPO_CONFIG.min_wpm then .tooSlow
     else if TEMPO_CONFIG.max_wpm < wpm then .tooFast
     else .goodPace)
    (if variation < TEMPO_CONFIG.good_variation then some .tooConstant
     else if TEMPO_CONFIG.excellent_variation < variation then some .goodSpeedVariation
     else none)

def analyze_tempo (c : IntensityContour) : TempoAnalysis :=
  if (tempoSamples c).length < 10 then
    { score := 5, syllables_per_second := 0, estimated_wpm := 0,
      variation_percent := 0, feedback := .tooShort }
  else
    { score := tempoScoreOf (tempoWpm c) (tempoVariation c),
      syllables_per_second := pyRound (tempoSps c) 2,
      estimated_wpm := pyRound (tempoWpm c) 0,
      variation_percent := pyRound (tempoVariation c) 1,
      feedback := tempoFeedbackOf (tempoWpm c) (tempoVariation c) }

/-! ## Rhythm analyzer (`analyze_rhythm`) -/

inductive RhythmFeedback where
  | tooShort | notEnoughSyllables | couldNotCalculate
  | verySyllableTimed | spanishPattern | approachingEnglish | nativeLike
deriving DecidableEq

structure RhythmAnalysis where
  score : ℤ
  pvi : ℚ
  is_syllable_timed : Bool
  feedback : RhythmFeedback
deriving DecidableEq

/-- The intensity samples collected by `analyze_rhythm`'s 10 ms
resampling loop. -/
def rhythmSamples (c : IntensityContour) : List (ℚ × ℚ) := resample c 0.01

/-- Rhythm's syllable nuclei: `find_peaks` with 100 ms spacing and the
40th percentile as height floor (no prominence constraint). -/
def rhythmPeaks (c : IntensityContour) : List ℕ :=
  findPeaks ((rhythmSamples c).map Prod.snd) 10
    (some (npPercentile ((rhythmSamples c).map Prod.snd) 40)) none

/-- The times of rhythm's detected nuclei. -/
def rhythmPeakTimes (c : IntensityContour) : List ℚ :=
  (rhythmPeaks c).map (fun p => ((rhythmSamples c).map Prod.fst).getD p 0)

/-- Inter-nucleus intervals kept for the nPVI: strictly inside
`(0.05 s, 1.0 s)`. -/
def rhythmIntervals (nucleusTimes : List ℚ) : List ℚ :=
  (diffs nucleusTimes).filter (fun d => 0.05 < d ∧ d < 1.0)

/-- The surviving intervals of `analyze_rhythm`. -/
def rhythmIntervalsOf (c : IntensityContour) : List ℚ :=
  rhythmIntervals (rhythmPeakTimes c)

/-- The accumulation loop of the nPVI:
`Σ |d_k - d_{k+1}| / ((d_k + d_{k+1}) / 2)` over consecutive pairs. -/
def pviSum : List ℚ → ℚ
  | d1 :: d2 :: rest => |d1 - d2| / ((d1 + d2) / 2) + pviSum (d2 :: rest)
  | _ => 0

/-- The unrounded nPVI of `analyze_rhythm`
(`(pvi_sum / (n - 1)) * 100` when `n > 1`, else 0). -/
def rhythmPvi (c : IntensityContour) : ℚ :=
  if 1 < (rhythmIntervalsOf c).length then
    pviSum (rhythmIntervalsOf c) / (((rhythmIntervalsOf c).length : ℚ) - 1) * 100
  else 0

/-- The four-segment piecewise rhythm score with its final clamp. -/
def rhythmScoreOf (pvi : ℚ) : ℤ :=
  min 10 (max 1 (
    if RHYTHM_CONFIG.english_native ≤ pvi then 10
    else if RHYTHM_CONFIG.english_target ≤ pvi then
      7 + pyTrunc ((pvi - RHYTHM_CONFIG.english_target) /
          (RHYTHM_CONFIG.english_native - RHYTHM_CONFIG.english_target) * 3)
    else if RHYTHM_CONFIG.spanish_typical ≤ pvi then
      4 + pyTrunc ((pvi - RHYTHM_CONFIG.spanish_typical) /
          (RHYTHM_CONFIG.english_target - RHYTHM_CONFIG.spanish_typical) * 3)
    else max 1 (pyTrunc (pvi / RHYTHM_CONFIG.spanish_typical * 4))))

def rhythmFeedbackOf (pvi : ℚ) : RhythmFeedback :=
  if pvi < RHYTHM_CONFIG.spanish_typical then .verySyllableTimed
  else if pvi < RHYTHM_CONFIG.english_target then .spanishPattern
  else if pvi < RHYTHM_CONFIG.english_native then .approachingEnglish
  else .nativeLike

def analyze_rhythm (c : IntensityContour) : RhythmAnalysis :=
  if (rhythmSamples c).length < 20 then
    { score := 5, pvi := 0, is_syllable_timed := true, feedback := .tooShort }
  else if (rhythmPeaks c).length < 3 then
    { score := 5, pvi := 40, is_syllable_timed := true,
      feedback := .notEnoughSyllables }
  else if (rhythmIntervalsOf c).length < 2 then
    { score := 5, pvi := 40, is_syllable_timed := true,
      feedback := .couldNotCalculate }
  else
    { score := rhythmScoreOf (rhythmPvi c),
      pvi := pyRound (rhythmPvi c) 1,
      is_syllable_timed := decide (rhythmPvi c < RHYTHM_CONFIG.english_target),
      feedback := rhythmFeedbackOf (rhythmPvi c) }

/-! ## Pause analyzer (`analyze_pauses`) -/

inductive PauseFeedback where
  | tooShort | noPauses | addMore | pausesTooLong | excellent | goodPattern
deriving DecidableEq

structure PauseAnalysis where
  score : ℤ
  pause_count : ℕ
  total_pause_duration : ℚ
  avg_pause_duration : ℚ
  pause_ratio : ℚ
  pauses : List (ℚ × ℚ)
  feedback : PauseFeedback
deriving DecidableEq

/-- The loop state of the pause scan: recorded pauses so far, the
`in_pause` flag, and the start time of the open pause. -/
structure PauseState where
  pauses : List (ℚ × ℚ)
  in_pause : Bool
  pause_start : ℚ

/-- One iteration of the pause scan over a `(time, value)` sample:
enter a pause when the value drops below the threshold; on rising back,
record the interval only when it lasted at least `minP`. -/
def pauseStep (th minP : ℚ) (st : PauseState) (tv : ℚ × ℚ) : PauseState :=
  if tv.2 < th then
    if st.in_pause then st else ⟨st.pauses, true, tv.1⟩
  else if st.in_pause then
    ⟨if minP ≤ tv.1 - st.pause_start then st.pauses ++ [(st.pause_start, tv.1)]
      else st.pauses, false, st.pause_start⟩
  else st

/-- The full pause scan, including the final step that closes a pause
still open at the last sample at the last timestamp, under the same
minimum-duration test. -/
def detectPauses (minP th : ℚ) (samples : List (ℚ × ℚ)) : List (ℚ × ℚ) :=
  let st := samples.foldl (pauseStep th minP) ⟨[], false, 0⟩
  if st.in_pause then
    match samples.getLast? with
    | some (tLast, _) =>
      if minP ≤ tLast - st.pause_start then st.pauses ++ [(st.pause_start, tLast)]
      else st.pauses
    | none => st.pauses
  else st.pauses

/-- The intensity samples collected by `analyze_pauses`'s 10 ms
resampling loop. -/
def pauseSamples (c : IntensityContour) : List (ℚ × ℚ) := resample c 0.01

/-- The adaptive pause threshold: 25th percentile of the samples. -/
def pauseThreshold (c : IntensityContour) : ℚ :=
  npPercentile ((pauseSamples c).map Prod.snd) 25

/-- The pauses detected by `analyze_pauses`. -/
def pausesOf (c : IntensityContour) : List (ℚ × ℚ) :=
  detectPauses PAUSE_CONFIG.min_pause_duration (pauseThreshold c) (pauseSamples c)

/-- Sum of the interval durations `end - start`. -/
def sumDur (l : List (ℚ × ℚ)) : ℚ := (l.map (fun p => p.2 - p.1)).sum

def pauseTotal (c : IntensityContour) : ℚ := sumDur (pausesOf c)

/-- `avg_pause_duration = total / count` when any pause exists, else 0. -/
def pauseAvg (c : IntensityContour) : ℚ :=
  if 0 < (pausesOf c).length then pauseTotal c / ((pausesOf c).length : ℚ) else 0

/-- `pauses_per_30s = count / duration * 30` (0 for nonpositive duration). -/
def pauseRate (c : IntensityContour) (duration : ℚ) : ℚ :=
  if 0 < duration then ((pausesOf c).length : ℚ) / duration * 30 else 0

/-- Piecewise pause score on the pause rate, the long-pause penalty, and
the final clamp. -/
def pauseScoreOf (rate avg : ℚ) : ℤ :=
  let s :=
    if PAUSE_CONFIG.excellent_pause_rate ≤ rate then 10
    else if PAUSE_CONFIG.good_pause_rate ≤ rate then
      7 + pyTrunc ((rate - PAUSE_CONFIG.good_pause_rate) /
          (PAUSE_CONFIG.excellent_pause_rate - PAUSE_CONFIG.good_pause_rate) * 3)
    else if 1 ≤ rate then
      3 + pyTrunc ((rate - 1) / (PAUSE_CONFIG.good_pause_rate - 1) * 4)
    else max 1 (pyTrunc (rate * 3))
  let s2 := if PAUSE_CONFIG.max_pause_duration < avg then max 1 (s - 2) else s
  min 10 (max 1 s2)

def pauseFeedbackOf (count : ℕ) (rate avg : ℚ) : PauseFeedback :=
  if count = 0 then .noPauses
  else if rate < PAUSE_CONFIG.good_pause_rate then .addMore
  else if PAUSE_CONFIG.max_pause_duration < avg then .pausesTooLong
  else if PAUSE_CONFIG.excellent_pause_rate ≤ rate then .excellent
  else .goodPattern

def analyze_pauses (c : IntensityContour) (duration : ℚ) : PauseAnalysis :=
  if (pauseSamples c).length < 10 then
    { score := 5, pause_count := 0, total_pause_duration := 0,
      avg_pause_duration := 0, pause_ratio := 0, pauses := [],
      feedback := .tooShort }
  else
    { score := pauseScoreOf (pauseRate c duration) (pauseAvg c),
      pause_count := (pausesOf c).length,
      total_pause_duration := pyRound (pauseTotal c) 2,
      avg_pause_duration := pyRound (pauseAvg c) 2,
      pause_ratio := pyRound (if 0 < duration then pauseTotal c / duration else 0) 3,
      pauses := pausesOf c,
      feedback := pauseFeedbackOf (pausesOf c).length (pauseRate c duration) (pauseAvg c) }

/-! ## Aggregator (`analyze_prosody`) -/

structure ProsodyAnalysis where
  pitch : PitchAnalysis
  volume : VolumeAnalysis
  tempo : TempoAnalysis
  rhythm : RhythmAnalysis
  pauses : PauseAnalysis
  duration : ℚ
  overall_score : ℚ
deriving DecidableEq

/-- The weighted overall score of `analyze_prosody`, rounded to one
decimal. -/
def overallScore (p v t r pa : ℤ) : ℚ :=
  pyRound ((p : ℚ) * 0.25 + (v : ℚ) * 0.20 + (t : ℚ) * 0.20 +
    (r : ℚ) * 0.20 + (pa : ℚ) * 0.15) 1

/-- `analyze_prosody` over the acoustic data the external provider
extracts from the sound: the F0 frame array, the intensity contour, and
the total duration. -/
def analyze_prosody (pitch_values : List ℚ) (c : IntensityContour)
    (duration : ℚ) : ProsodyAnalysis :=
  let pitch_result := analyze_pitch pitch_values
  let volume_result := analyze_volume c
  let tempo_result := analyze_tempo c
  let rhythm_result := analyze_rhythm c
  let pause_result := analyze_pauses c duration
  { pitch := pitch_result, volume := volume_result, tempo := tempo_result,
    rhythm := rhythm_result, pauses := pause_result, duration := duration,
    overall_score := overallScore pitch_result.score volume_result.score
      tempo_result.score rhythm_result.score pause_result.score }

/-- The malformed-input failures the spec assigns to the caller-facing
entry point. -/
inductive InputError where
  | negative_sample_rate
  | reversed_time_range
deriving DecidableEq

/-- Modelled from the spec: the input validation of the external acoustic
provider (the `parselmouth.Sound` construction on line 109 of
`src/analyzer.py`), which is not part of the repository's own sources:
"The only failure that should surface to a caller is malformed input
(negative sample rate, reversed time range) — fail fast naming the
invalid field."  Every other input reaches the five analyzers and yields
a report. -/
def analyze_prosody_checked (sample_rate : ℤ) (pitch_values : List ℚ)
    (c : IntensityContour) (duration : ℚ) : Except InputError ProsodyAnalysis :=
  if sample_rate < 0 then .error .negative_sample_rate
  else if c.endTime < c.startTime then .error .reversed_time_range
  else .ok (analyze_prosody pitch_values c duration)

/-! ## Specification-side formulas and concrete contours -/

/-- The nPVI exactly as the spec's formula states it:
`100 × (Σ |d_k − d_{k+1}| / ((d_k + d_{k+1})/2)) / (n−1)`, the sum
running over consecutive interval pairs. -/
def nPVIspec (ds : List ℚ) : ℚ :=
  100 * ((ds.zip ds.tail).map (fun p => |p.1 - p.2| / ((p.1 + p.2) / 2))).sum /
    ((ds.length : ℚ) - 1)

/-- Decidable well-formedness of a pause list: each interval has
`start < end`, and consecutive intervals are strictly separated (hence
ordered and pairwise disjoint). -/
def pausesChainB : List (ℚ × ℚ) → Bool
  | [] => true
  | [p] => decide (p.1 < p.2)
  | p :: q :: rest => (decide (p.1 < p.2) && decide (p.2 < q.1)) && pausesChainB (q :: rest)

/-- A one-sample contour (start = end): every guarded analyzer sees a
single valid sample. -/
def rhythmShortContour : IntensityContour :=
  { startTime := 0, endTime := 0, timeStep := 0.01, valueAt := fun _ => some 50 }

/-- 25 samples at 10 ms over [0, 0.24]: three nuclei at 0.02, 0.12, 0.22
above a 50 dB floor, giving two surviving 0.1 s intervals. -/
def rhythmThreePeaksContour : IntensityContour :=
  { startTime := 0, endTime := 0.24, timeStep := 0.01,
    valueAt := fun t =>
      some (if t = 0.02 then 60 else if t = 0.12 then 61 else if t = 0.22 then 62 else 50) }

/-- 15 constant samples: no peaks, estimated WPM 0 (out of range). -/
def constant15Contour : IntensityContour :=
  { startTime := 0, endTime := 0.14, timeStep := 0.01, valueAt := fun _ => some 50 }

/-- 25 constant samples: enough samples for rhythm, but no peaks. -/
def constant25Contour : IntensityContour :=
  { startTime := 0, endTime := 0.24, timeStep := 0.01, valueAt := fun _ => some 50 }

/-- A contour whose query always answers `none` (all-NaN intensity). -/
def noDataContour : IntensityContour :=
  { startTime := 0, endTime := 1, timeStep := 0.01, valueAt := fun _ => none }

/-- Three nuclei more than 1 s apart: at least 20 valid samples and 3
peaks, but no inter-nucleus interval survives the `(0.05, 1.0)` filter. -/
def farPeaksContour : IntensityContour :=
  { startTime := 0, endTime := 2.22, timeStep := 0.01,
    valueAt := fun t =>
      if t = 0.02 ∨ t = 1.11 ∨ t = 2.2 then some 60
      else if (0 ≤ t ∧ t ≤ 0.10) ∨ (1.1 ≤ t ∧ t ≤ 1.20) ∨ (2.2 ≤ t ∧ t ≤ 2.22) then some 50
      else none }

/-- A contour with a reversed time range (end before start). -/
def reversedContour : IntensityContour :=
  { startTime := 1, endTime := 0, timeStep := 0.01, valueAt := fun _ => some 50 }

/-- 101 samples on [0, 1]; intensity 20 on [0.10, 0.29] (a 20-sample
sub-threshold run closed by the rise at 0.30, i.e. exactly 0.2 s), 60
elsewhere; the 25th-percentile threshold is 60. -/
def pauseRun020Contour : IntensityContour :=
  { startTime := 0, endTime := 1, timeStep := 0.01,
    valueAt := fun t => some (if 0.10 ≤ t ∧ t ≤ 0.29 then 20 else 60) }

/-- Same, but the run spans [0.10, 0.28]: 0.19 s up to the rise. -/
def pauseRun019Contour : IntensityContour :=
  { startTime := 0, endTime := 1, timeStep := 0.01,
    valueAt := fun t => some (if 0.10 ≤ t ∧ t ≤ 0.28 then 20 else 60) }

/-- Sub-threshold tail from 0.80 to the last sample at 1.00 (0.2 s). -/
def pauseTail020Contour : IntensityContour :=
  { startTime := 0, endTime := 1, timeStep := 0.01,
    valueAt := fun t => some (if 0.80 ≤ t then 20 else 60) }

/-- Sub-threshold tail from 0.81 to the last sample at 1.00 (0.19 s). -/
def pauseTail019Contour : IntensityContour :=
  { startTime := 0, endTime := 1, timeStep := 0.01,
    valueAt := fun t => some (if 0.81 ≤ t then 20 else 60) }

/-! ## Helper lemmas -/

lemma clamp10_bounds (x : ℤ) : 1 ≤ min 10 (max 1 x) ∧ min 10 (max 1 x) ≤ 10 := by
  omega

lemma wpmSubScore_flag (w : ℚ) :
    (wpmSubScore w).2 = true ↔ 100 ≤ w ∧ w ≤ 180 := by
  have hmin : TEMPO_CONFIG.min_wpm = 100 := rfl
  have hmax : TEMPO_CONFIG.max_wpm = 180 := rfl
  unfold wpmSubScore
  rw [hmin, hmax]
  split_ifs with h1 h2
  · simp only [Bool.false_eq_true, false_iff]
    intro h; linarith [h.1]
  · simp only [Bool.false_eq_true, false_iff]
    intro h; linarith [h.2]
  · simp only [true_iff]
    constructor <;> linarith

lemma pviSum_eq_zip (ds : List ℚ) :
    pviSum ds = ((ds.zip ds.tail).map (fun p => |p.1 - p.2| / ((p.1 + p.2) / 2))).sum := by
  induction ds with
  | nil => rfl
  | cons d rest ih =>
    cases rest with
    | nil => rfl
    | cons d2 rest2 =>
      simp only [pviSum, List.tail_cons, List.zip_cons_cons, List.map_cons, List.sum_cons]
      rw [ih]
      simp only [List.tail_cons]

lemma pausesChainB_append (l : List (ℚ × ℚ)) (s e : ℚ)
    (hl : pausesChainB l = true) (hs : ∀ p ∈ l, p.2 < s) (hse : s < e) :
    pausesChainB (l ++ [(s, e)]) = true := by
  induction l with
  | nil => simpa [pausesChainB] using hse
  | cons p rest ih =>
    cases rest with
    | nil =>
      simp only [pausesChainB, decide_eq_true_eq] at hl
      simp only [List.cons_append, List.nil_append, pausesChainB,
        Bool.and_eq_true, decide_eq_true_eq]
      exact ⟨⟨hl, hs p (by simp)⟩, by simpa [pausesChainB] using hse⟩
    | cons q rest2 =>
      simp only [pausesChainB, Bool.and_eq_true, decide_eq_true_eq] at hl
      simp only [List.cons_append, pausesChainB, Bool.and_eq_true, decide_eq_true_eq]
      refine ⟨⟨hl.1.1, hl.1.2⟩, ?_⟩
      have := ih hl.2 (fun p hp => hs p (List.mem_cons_of_mem _ hp))
      simpa using this

lemma pauseStep_min_dur (th minP : ℚ) (st : PauseState) (tv : ℚ × ℚ)
    (h : ∀ p ∈ st.pauses, minP ≤ p.2 - p.1) :
    ∀ p ∈ (pauseStep th minP st tv).pauses, minP ≤ p.2 - p.1 := by
  unfold pauseStep
  split_ifs with h1 h2 h3 h4
  · exact h
  · exact h
  · intro p hp
    rcases List.mem_append.mp hp with hp | hp
    · exact h p hp
    · rcases List.mem_singleton.mp hp with rfl
      simpa using h4
  · exact h
  · exact h

lemma pauseFold_min_dur (th minP : ℚ) (samples : List (ℚ × ℚ)) :
    ∀ st : PauseState, (∀ p ∈ st.pauses, minP ≤ p.2 - p.1) →
      ∀ p ∈ (samples.foldl (pauseStep th minP) st).pauses, minP ≤ p.2 - p.1 := by
  induction samples with
  | nil => intro st h; simpa using h
  | cons a rest ih =>
    intro st h
    exact ih _ (pauseStep_min_dur th minP st a h)

lemma detectPauses_min_dur (minP th : ℚ) (samples : List (ℚ × ℚ)) :
    ∀ p ∈ detectPauses minP th samples, minP ≤ p.2 - p.1 := by
  have hfold := pauseFold_min_dur th minP samples ⟨[], false, 0⟩ (by simp)
  intro p hp
  simp only [detectPauses] at hp
  set st := samples.foldl (pauseStep th minP) ⟨[], false, 0⟩ with hst
  by_cases hb : st.in_pause = true
  · rw [if_pos hb] at hp
    cases hlast : samples.getLast? with
    | none => simp only [hlast] at hp; exact hfold p hp
    | some tl =>
      obtain ⟨tLast, vLast⟩ := tl
      simp only [hlast] at hp
      by_cases h2 : minP ≤ tLast - st.pause_start
      · rw [if_pos h2] at hp
        rcases List.mem_append.mp hp with hp2 | hp2
        · exact hfold p hp2
        · rcases List.mem_singleton.mp hp2 with rfl
          simpa using h2
      · rw [if_neg h2] at hp
        exact hfold p hp
  · rw [if_neg hb] at hp
    exact hfold p hp

lemma pauseStep_inv (th minP : ℚ) (hminP : 0 < minP) (st : PauseState) (t v : ℚ)
    (rest : List (ℚ × ℚ))
    (hto : ∀ a ∈ rest.map Prod.fst, t < a)
    (hchain : pausesChainB st.pauses = true)
    (h2 : ∀ p ∈ st.pauses, ∀ q ∈ (t, v) :: rest, p.2 < q.1)
    (h4 : st.in_pause = true →
      (∀ p ∈ st.pauses, p.2 < st.pause_start) ∧
      (∀ q ∈ (t, v) :: rest, st.pause_start < q.1)) :
    pausesChainB (pauseStep th minP st (t, v)).pauses = true ∧
    (∀ p ∈ (pauseStep th minP st (t, v)).pauses, ∀ q ∈ rest, p.2 < q.1) ∧
    ((pauseStep th minP st (t, v)).in_pause = true →
      (∀ p ∈ (pauseStep th minP st (t, v)).pauses,
        p.2 < (pauseStep th minP st (t, v)).pause_start) ∧
      (∀ q ∈ rest, (pauseStep th minP st (t, v)).pause_start < q.1)) := by
  have h2r : ∀ p ∈ st.pauses, ∀ q ∈ rest, p.2 < q.1 :=
    fun p hp q hq => h2 p hp q (List.mem_cons_of_mem _ hq)
  unfold pauseStep
  by_cases hv : (t, v).2 < th
  · rw [if_pos hv]
    by_cases hb : st.in_pause = true
    · rw [if_pos hb]
      refine ⟨hchain, h2r, fun _ => ⟨(h4 hb).1,
        fun q hq => (h4 hb).2 q (List.mem_cons_of_mem _ hq)⟩⟩
    · rw [if_neg hb]
      refine ⟨hchain, h2r, fun _ => ⟨?_, ?_⟩⟩
      · exact fun p hp => h2 p hp (t, v) (List.mem_cons_self _ _)
      · intro q hq
        exact hto q.1 (List.mem_map_of_mem Prod.fst hq)
  · rw [if_neg hv]
    by_cases hb : st.in_pause = true
    · rw [if_pos hb]
      by_cases hd : minP ≤ (t, v).1 - st.pause_start
      · rw [if_pos hd]
        have hst : st.pause_start < t := by
          have hd2 : minP ≤ t - st.pause_start := hd
          linarith
        refine ⟨?_, ?_, ?_⟩
        · exact pausesChainB_append st.pauses st.pause_start t hchain (h4 hb).1 hst
        · intro p hp q hq
          rcases List.mem_append.mp hp with hp2 | hp2
          · exact h2r p hp2 q hq
          · rcases List.mem_singleton.mp hp2 with rfl
            exact hto q.1 (List.mem_map_of_mem Prod.fst hq)
        · intro hfalse
          simp at hfalse
      · rw [if_neg hd]
        refine ⟨hchain, h2r, ?_⟩
        intro hfalse
        simp at hfalse
    · rw [if_neg hb]
      exact ⟨hchain, h2r, fun hbt => absurd hbt hb⟩

lemma pauseFold_chain (th minP : ℚ) (hminP : 0 < minP) :
    ∀ (samples : List (ℚ × ℚ)) (st : PauseState),
      (samples.map Prod.fst).Pairwise (· < ·) →
      pausesChainB st.pauses = true →
      (∀ p ∈ st.pauses, ∀ q ∈ samples, p.2 < q.1) →
      (st.in_pause = true →
        (∀ p ∈ st.pauses, p.2 < st.pause_start) ∧
        (∀ q ∈ samples, st.pause_start < q.1)) →
      pausesChainB (samples.foldl (pauseStep th minP) st).pauses = true ∧
      ((samples.foldl (pauseStep th minP) st).in_pause = true →
        ∀ p ∈ (samples.foldl (pauseStep th minP) st).pauses,
          p.2 < (samples.foldl (pauseStep th minP) st).pause_start) := by
  intro samples
  induction samples with
  | nil =>
    intro st hpw hchain h2 h4
    exact ⟨hchain, fun hb => (h4 hb).1⟩
  | cons tv rest ih =>
    intro st hpw hchain h2 h4
    obtain ⟨t, v⟩ := tv
    rw [List.map_cons, List.pairwise_cons] at hpw
    rw [List.foldl_cons]
    have hstep := pauseStep_inv th minP hminP st t v rest hpw.1 hchain h2 h4
    exact ih _ hpw.2 hstep.1 hstep.2.1
      (fun hb => ⟨(hstep.2.2 hb).1, (hstep.2.2 hb).2⟩)

lemma detectPauses_chain (minP th : ℚ) (hminP : 0 < minP)
    (samples : List (ℚ × ℚ))
    (hpw : (samples.map Prod.fst).Pairwise (· < ·)) :
    pausesChainB (detectPauses minP th samples) = true := by
  have hfold := pauseFold_chain th minP hminP samples ⟨[], false, 0⟩ hpw rfl
    (by simp) (by simp)
  simp only [detectPauses]
  set st := samples.foldl (pauseStep th minP) ⟨[], false, 0⟩ with hst
  by_cases hb : st.in_pause = true
  · rw [if_pos hb]
    cases hlast : samples.getLast? with
    | none => exact hfold.1
    | some tl =>
      obtain ⟨tLast, vLast⟩ := tl
      simp only
      by_cases h2 : minP ≤ tLast - st.pause_start
      · rw [if_pos h2]
        exact pausesChainB_append st.pauses st.pause_start tLast hfold.1
          (hfold.2 hb) (by linarith)
      · rw [if_neg h2]
        exact hfold.1
  · rw [if_neg hb]
    exact hfold.1

lemma sampleTimes_pairwise (a b s : ℚ) : (sampleTimes a b s).Pairwise (· < ·) := by
  unfold sampleTimes
  split_ifs with h
  · rw [List.pairwise_map]
    refine List.Pairwise.imp ?_ (List.pairwise_lt_range _)
    intro x y hxy
    have hx : (x : ℚ) < (y : ℚ) := by exact_mod_cast hxy
    have hs : (0 : ℚ) < s := h.1
    nlinarith
  · exact List.Pairwise.nil

lemma filterMap_pair_fst_sublist (g : ℚ → Option ℚ) (l : List ℚ) :
    ((l.filterMap (fun t => (g t).map (fun v => (t, v)))).map Prod.fst).Sublist l := by
  induction l with
  | nil => simp
  | cons a t ih =>
    cases h : g a with
    | none =>
      rw [List.filterMap_cons, h]
      exact ih.cons a
    | some v =>
      rw [List.filterMap_cons, h]
      simpa using ih.cons₂ a

lemma resample_fst_pairwise (c : IntensityContour) (step : ℚ) :
    ((resample c step).map Prod.fst).Pairwise (· < ·) := by
  exact (sampleTimes_pairwise c.startTime c.endTime step).sublist
    (filterMap_pair_fst_sublist c.valueAt (sampleTimes c.startTime c.endTime step))

lemma pausesOf_chain (c : IntensityContour) : pausesChainB (pausesOf c) = true := by
  refine detectPauses_chain _ _ (by norm_num [PAUSE_CONFIG]) _ ?_
  exact resample_fst_pairwise c 0.01

lemma pausesOf_min_dur (c : IntensityContour) :
    ∀ p ∈ pausesOf c, (0.2 : ℚ) ≤ p.2 - p.1 := by
  have h := detectPauses_min_dur PAUSE_CONFIG.min_pause_duration (pauseThreshold c)
    (pauseSamples c)
  have he : PAUSE_CONFIG.min_pause_duration = (0.2 : ℚ) := rfl
  intro p hp
  rw [← he]
  exact h p hp

lemma pauseAvg_round (c : IntensityContour) :
    pyRound (pauseAvg c) 2 =
      (if 0 < (pausesOf c).length then
        pyRound (sumDur (pausesOf c) / ((pausesOf c).length : ℚ)) 2
      else 0) := by
  rw [pauseAvg]
  split_ifs with hl
  · rfl
  · show pyRound 0 2 = (0 : ℚ)
    with_unfolding_all decide


/-! ## Claim theorems -/

/-- C1: for every input contour, including every documented degenerate
case (no voiced frames, too-short sequence, too few nuclei, too few
valid intervals), each of the five analyzers returns a report whose
`score` is an integer in `[1, 10]`. -/
theorem C1_component_scores_in_range :
    (∀ pitch_values : List ℚ,
       1 ≤ (analyze_pitch pitch_values).score ∧ (analyze_pitch pitch_values).score ≤ 10)
  ∧ (∀ c : IntensityContour, 1 ≤ (analyze_volume c).score ∧ (analyze_volume c).score ≤ 10)
  ∧ (∀ c : IntensityContour, 1 ≤ (analyze_tempo c).score ∧ (analyze_tempo c).score ≤ 10)
  ∧ (∀ c : IntensityContour, 1 ≤ (analyze_rhythm c).score ∧ (analyze_rhythm c).score ≤ 10)
  ∧ (∀ (c : IntensityContour) (d : ℚ),
       1 ≤ (analyze_pauses c d).score ∧ (analyze_pauses c d).score ≤ 10) := by
  refine ⟨?_, ?_, ?_, ?_, ?_⟩
  · intro l
    simp only [analyze_pitch]
    split
    · exact ⟨le_refl 1, by norm_num⟩
    · exact clamp10_bounds _
  · intro c
    simp only [analyze_volume]
    split
    · exact ⟨le_refl 1, by norm_num⟩
    · exact clamp10_bounds _
  · intro c
    simp only [analyze_tempo]
    split
    · norm_num
    · simp only [tempoScoreOf]
      split <;> omega
  · intro c
    simp only [analyze_rhythm]
    split
    · norm_num
    · split
      · norm_num
      · split
        · norm_num
        · exact clamp10_bounds _
  · intro c d
    simp only [analyze_pauses]
    split
    · norm_num
    · simp only [pauseScoreOf]
      split <;> omega

/-- C2: `analyze_prosody` computes `overall_score` as
`0.25·pitch + 0.20·volume + 0.20·tempo + 0.20·rhythm + 0.15·pause`
rounded to one decimal; the weights sum to 1, all-10 component scores
give exactly 10.0, and all-1 component scores give exactly 1.0. -/
theorem C2_overall_score_weighted_average :
    (∀ (pv : List ℚ) (c : IntensityContour) (d : ℚ),
      (analyze_prosody pv c d).overall_score =
        overallScore (analyze_pitch pv).score (analyze_volume c).score
          (analyze_tempo c).score (analyze_rhythm c).score (analyze_pauses c d).score)
  ∧ (0.25 + 0.20 + 0.20 + 0.20 + 0.15 : ℚ) = 1
  ∧ overallScore 10 10 10 10 10 = 10
  ∧ overallScore 1 1 1 1 1 = 1 := by
  refine ⟨fun pv c d => rfl, by norm_num, ?_, ?_⟩
  · with_unfolding_all decide
  · with_unfolding_all decide

/-- C3 counterexample: on a contour with fewer than 20 valid resampled
samples, `analyze_rhythm` returns `pvi = 0`, not the claimed
`pvi = 40` (score and `is_syllable_timed` are as claimed). -/
theorem C3_counterexample_short_rhythm_pvi :
    (rhythmSamples rhythmShortContour).length < 20 ∧
    (analyze_rhythm rhythmShortContour).score = 5 ∧
    (analyze_rhythm rhythmShortContour).is_syllable_timed = true ∧
    (analyze_rhythm rhythmShortContour).pvi ≠ 40 := by
  with_unfolding_all decide

/-- C3 amended: whenever the resampled intensity sequence available to
`analyze_rhythm` has fewer than 20 valid samples, it returns the neutral
default report with `score = 5`, `pvi = 0` and
`is_syllable_timed = true`. -/
theorem C3_amended_short_rhythm_default :
    ∀ c : IntensityContour, (rhythmSamples c).length < 20 →
      analyze_rhythm c =
        { score := 5, pvi := 0, is_syllable_timed := true, feedback := .tooShort } := by
  intro c h
  simp only [analyze_rhythm, if_pos h]

/-- Witness for the amended C3 at a concrete one-sample contour. -/
theorem C3_amended_short_rhythm_default_witness :
    (rhythmSamples rhythmShortContour).length < 20 ∧
    analyze_rhythm rhythmShortContour =
      { score := 5, pvi := 0, is_syllable_timed := true, feedback := .tooShort } :=
  ⟨by with_unfolding_all decide,
   C3_amended_short_rhythm_default rhythmShortContour (by with_unfolding_all decide)⟩

/-- C4: `analyze_pitch` discards unvoiced frames (frequency ≤ 0); with
zero voiced frames it returns the terminal low-confidence report
(`score = 1`, all metrics 0), and whenever the voiced values span at
least 150 Hz the score is 10. -/
theorem C4_pitch_degenerate_and_excellent :
    (∀ l : List ℚ, voicedValues l = [] →
       analyze_pitch l = { score := 1, min_hz := 0, max_hz := 0, mean_hz := 0,
                           range_hz := 0, std_hz := 0, feedback := .noVoiced })
  ∧ (∀ l : List ℚ, voicedValues l ≠ [] →
       150 ≤ npMax (voicedValues l) - npMin (voicedValues l) →
       (analyze_pitch l).score = 10) := by
  constructor
  · intro l h
    simp only [analyze_pitch, if_pos h]
  · intro l h h150
    simp only [analyze_pitch, if_neg h, pitchRawScore]
    rw [if_pos]
    · norm_num
    · exact h150

/-- Witness for C4: an all-unvoiced contour, and a voiced contour whose
range is exactly 150 Hz. -/
theorem C4_pitch_degenerate_and_excellent_witness :
    (voicedValues [(-1 : ℚ), 0] = [] ∧
      analyze_pitch [(-1 : ℚ), 0] =
        { score := 1, min_hz := 0, max_hz := 0, mean_hz := 0,
          range_hz := 0, std_hz := 0, feedback := .noVoiced })
  ∧ (voicedValues [(100 : ℚ), 250] ≠ [] ∧
      150 ≤ npMax (voicedValues [(100 : ℚ), 250]) - npMin (voicedValues [(100 : ℚ), 250]) ∧
      (analyze_pitch [(100 : ℚ), 250]).score = 10) :=
  ⟨⟨by with_unfolding_all decide,
    C4_pitch_degenerate_and_excellent.1 _ (by with_unfolding_all decide)⟩,
   ⟨by with_unfolding_all decide, by with_unfolding_all decide,
    C4_pitch_degenerate_and_excellent.2 _ (by with_unfolding_all decide)
      (by with_unfolding_all decide)⟩⟩

set_option maxRecDepth 40000 in
/-- C5: a below-threshold run is recorded by the pause scan only when its
duration is at least 0.2 s (the minimum is inclusive): every recorded
pause lasts at least 0.2 s; a run closed by a rise exactly 0.2 s after it
began yields one pause of duration 0.2 s while a 0.19 s run yields none;
and a pause still open at the final sample is closed at the last
timestamp under the same inclusive test. -/
theorem C5_pause_min_duration_inclusive :
    (∀ (th : ℚ) (samples : List (ℚ × ℚ)),
      (detectPauses PAUSE_CONFIG.min_pause_duration th samples).all
        (fun p => decide ((0.2 : ℚ) ≤ p.2 - p.1)) = true)
  ∧ (analyze_pauses pauseRun020Contour 1).pauses = [(0.10, 0.30)]
  ∧ (analyze_pauses pauseRun019Contour 1).pauses = []
  ∧ (analyze_pauses pauseTail020Contour 1).pauses = [(0.80, 1)]
  ∧ (analyze_pauses pauseTail019Contour 1).pauses = [] := by
  refine ⟨?_, ?_, ?_, ?_, ?_⟩
  · intro th samples
    rw [List.all_eq_true]
    intro p hp
    exact decide_eq_true
      (detectPauses_min_dur PAUSE_CONFIG.min_pause_duration th samples p hp)
  · with_unfolding_all decide
  · with_unfolding_all decide
  · with_unfolding_all decide
  · with_unfolding_all decide

/-- C6: given the detected nucleus times, `analyze_rhythm` keeps only
inter-nucleus intervals strictly inside `(0.05 s, 1.0 s)`; with at least
2 surviving intervals it returns the nPVI
`100 × (Σ |d_k − d_{k+1}| / ((d_k + d_{k+1})/2)) / (n−1)` (the stored
metric is that value rounded to one decimal), and `is_syllable_timed`
holds exactly when the nPVI is below 55 (`english_target`). -/
theorem C6_rhythm_npvi_formula :
    (∀ ts : List ℚ,
      (rhythmIntervals ts).all (fun d => decide ((0.05 : ℚ) < d ∧ d < 1.0)) = true)
  ∧ (∀ c : IntensityContour,
      ¬ (rhythmSamples c).length < 20 →
      ¬ (rhythmPeaks c).length < 3 →
      2 ≤ (rhythmIntervalsOf c).length →
      (analyze_rhythm c).pvi = pyRound (nPVIspec (rhythmIntervalsOf c)) 1 ∧
      ((analyze_rhythm c).is_syllable_timed = true ↔
        nPVIspec (rhythmIntervalsOf c) < 55)) := by
  constructor
  · intro ts
    rw [List.all_eq_true]
    intro d hd
    rw [rhythmIntervals, List.mem_filter] at hd
    exact hd.2
  · intro c h1 h2 h3
    have h3' : ¬ (rhythmIntervalsOf c).length < 2 := by omega
    have hpvi : rhythmPvi c = nPVIspec (rhythmIntervalsOf c) := by
      rw [rhythmPvi, if_pos (show 1 < (rhythmIntervalsOf c).length by omega),
        nPVIspec, pviSum_eq_zip]
      ring
    constructor
    · simp only [analyze_rhythm, if_neg h1, if_neg h2, if_neg h3', hpvi]
    · simp only [analyze_rhythm, if_neg h1, if_neg h2, if_neg h3', hpvi]
      have he : RHYTHM_CONFIG.english_target = 55 := rfl
      rw [he]
      exact decide_eq_true_iff

set_option maxRecDepth 8000 in
/-- Witness for C6 at a 25-sample contour with three nuclei and two
surviving 0.1 s intervals (nPVI 0, syllable-timed). -/
theorem C6_rhythm_npvi_formula_witness :
    ¬ (rhythmSamples rhythmThreePeaksContour).length < 20 ∧
    ¬ (rhythmPeaks rhythmThreePeaksContour).length < 3 ∧
    2 ≤ (rhythmIntervalsOf rhythmThreePeaksContour).length ∧
    (analyze_rhythm rhythmThreePeaksContour).pvi =
      pyRound (nPVIspec (rhythmIntervalsOf rhythmThreePeaksContour)) 1 ∧
    (analyze_rhythm rhythmThreePeaksContour).is_syllable_timed = true :=
  ⟨by with_unfolding_all decide, by with_unfolding_all decide,
   by with_unfolding_all decide,
   (C6_rhythm_npvi_formula.2 rhythmThreePeaksContour (by with_unfolding_all decide)
     (by with_unfolding_all decide) (by with_unfolding_all decide)).1,
   ((C6_rhythm_npvi_formula.2 rhythmThreePeaksContour (by with_unfolding_all decide)
     (by with_unfolding_all decide) (by with_unfolding_all decide)).2).mpr
     (by with_unfolding_all decide)⟩

/-- C7: past the short-input guard, `analyze_tempo`'s final score is the
truncation of `0.7 × wpm_sub + 0.3 × variation_sub`, capped at 7 when the
estimated WPM lies outside `[100, 180]`, then clamped to `[1, 10]`; in
particular an out-of-range WPM forces a score of at most 7. -/
theorem C7_tempo_score_combination :
    ∀ c : IntensityContour, ¬ (tempoSamples c).length < 10 →
      ((analyze_tempo c).score =
        min 10 (max 1 (
          if tempoWpm c < 100 ∨ 180 < tempoWpm c then
            min (pyTrunc ((0.7 : ℚ) * ((wpmSubScore (tempoWpm c)).1 : ℚ) +
              (0.3 : ℚ) * ((variationSubScore (tempoVariation c)) : ℚ))) 7
          else
            pyTrunc ((0.7 : ℚ) * ((wpmSubScore (tempoWpm c)).1 : ℚ) +
              (0.3 : ℚ) * ((variationSubScore (tempoVariation c)) : ℚ)))))
      ∧ ((tempoWpm c < 100 ∨ 180 < tempoWpm c) → (analyze_tempo c).score ≤ 7) := by
  intro c h
  have harg : (((wpmSubScore (tempoWpm c)).1 : ℚ) * 0.7 +
      ((variationSubScore (tempoVariation c)) : ℚ) * 0.3) =
      ((0.7 : ℚ) * ((wpmSubScore (tempoWpm c)).1 : ℚ) +
       (0.3 : ℚ) * ((variationSubScore (tempoVariation c)) : ℚ)) := by ring
  have hs : (analyze_tempo c).score =
      min 10 (max 1 (if (wpmSubScore (tempoWpm c)).2 = true then
        pyTrunc ((0.7 : ℚ) * ((wpmSubScore (tempoWpm c)).1 : ℚ) +
          (0.3 : ℚ) * ((variationSubScore (tempoVariation c)) : ℚ))
        else min (pyTrunc ((0.7 : ℚ) * ((wpmSubScore (tempoWpm c)).1 : ℚ) +
          (0.3 : ℚ) * ((variationSubScore (tempoVariation c)) : ℚ))) 7)) := by
    simp only [analyze_tempo, if_neg h, tempoScoreOf, harg]
  constructor
  · rw [hs]
    have hiff := wpmSubScore_flag (tempoWpm c)
    by_cases hr : tempoWpm c < 100 ∨ 180 < tempoWpm c
    · rw [if_pos hr, if_neg]
      intro hflag
      rcases (hiff.mp hflag) with ⟨a, b⟩
      rcases hr with h' | h' <;> linarith
    · rw [if_neg hr, if_pos]
      push_neg at hr
      exact hiff.mpr ⟨by linarith [hr.1], hr.2⟩
  · intro hr
    rw [hs, if_neg]
    · omega
    · intro hflag
      rcases (wpmSubScore_flag (tempoWpm c)).mp hflag with ⟨a, b⟩
      rcases hr with h' | h' <;> linarith

set_option maxRecDepth 8000 in
/-- Witness for C7 at a 15-sample constant contour: no nuclei, WPM 0
(out of range), final score capped below 7. -/
theorem C7_tempo_score_combination_witness :
    ¬ (tempoSamples constant15Contour).length < 10 ∧
    (tempoWpm constant15Contour < 100 ∨ 180 < tempoWpm constant15Contour) ∧
    (analyze_tempo constant15Contour).score ≤ 7 ∧
    (analyze_tempo constant15Contour).score =
      min 10 (max 1 (
        if tempoWpm constant15Contour < 100 ∨ 180 < tempoWpm constant15Contour then
          min (pyTrunc ((0.7 : ℚ) * ((wpmSubScore (tempoWpm constant15Contour)).1 : ℚ) +
            (0.3 : ℚ) * ((variationSubScore (tempoVariation constant15Contour)) : ℚ))) 7
        else
          pyTrunc ((0.7 : ℚ) * ((wpmSubScore (tempoWpm constant15Contour)).1 : ℚ) +
            (0.3 : ℚ) * ((variationSubScore (tempoVariation constant15Contour)) : ℚ)))) :=
  ⟨by with_unfolding_all decide, by with_unfolding_all decide,
   (C7_tempo_score_combination constant15Contour (by with_unfolding_all decide)).2
     (by with_unfolding_all decide),
   (C7_tempo_score_combination constant15Contour (by with_unfolding_all decide)).1⟩

/-- C8: every analyzer is a total function that answers each documented
degenerate case with its explicit low-confidence report; the only
caller-facing failure of the checked entry point is malformed input — a
negative sample rate or a reversed time range — rejected fast with an
error naming the invalid field (the validation itself is modelled from
the spec, since it lives in the external `parselmouth.Sound`
constructor). -/
theorem C8_degenerate_reports_and_failfast :
    (∀ l : List ℚ, voicedValues l = [] →
       analyze_pitch l = { score := 1, min_hz := 0, max_hz := 0, mean_hz := 0,
                           range_hz := 0, std_hz := 0, feedback := .noVoiced })
  ∧ (∀ c : IntensityContour, volumeVals c = [] →
       analyze_volume c = { score := 1, min_db := 0, max_db := 0, mean_db := 0,
                            dynamic_range_db := 0, stress_contrast_db := 0,
                            feedback := .noData })
  ∧ (∀ c : IntensityContour, (tempoSamples c).length < 10 →
       analyze_tempo c = { score := 5, syllables_per_second := 0, estimated_wpm := 0,
                           variation_percent := 0, feedback := .tooShort })
  ∧ (∀ c : IntensityContour, (rhythmSamples c).length < 20 →
       analyze_rhythm c = { score := 5, pvi := 0, is_syllable_timed := true,
                            feedback := .tooShort })
  ∧ (∀ c : IntensityContour, ¬ (rhythmSamples c).length < 20 →
       (rhythmPeaks c).length < 3 →
       analyze_rhythm c = { score := 5, pvi := 40, is_syllable_timed := true,
                            feedback := .notEnoughSyllables })
  ∧ (∀ c : IntensityContour, ¬ (rhythmSamples c).length < 20 →
       ¬ (rhythmPeaks c).length < 3 → (rhythmIntervalsOf c).length < 2 →
       analyze_rhythm c = { score := 5, pvi := 40, is_syllable_timed := true,
                            feedback := .couldNotCalculate })
  ∧ (∀ (c : IntensityContour) (d : ℚ), (pauseSamples c).length < 10 →
       analyze_pauses c d = { score := 5, pause_count := 0, total_pause_duration := 0,
                              avg_pause_duration := 0, pause_ratio := 0, pauses := [],
                              feedback := .tooShort })
  ∧ (∀ (sr : ℤ) (pv : List ℚ) (c : IntensityContour) (d : ℚ),
       analyze_prosody_checked sr pv c d =
         if sr < 0 then .error .negative_sample_rate
         else if c.endTime < c.startTime then .error .reversed_time_range
         else .ok (analyze_prosody pv c d)) := by
  refine ⟨?_, ?_, ?_, ?_, ?_, ?_, ?_, fun sr pv c d => rfl⟩
  · intro l h
    simp only [analyze_pitch, if_pos h]
  · intro c h
    have hlen : (volumeVals c).length = 0 := by rw [h]; rfl
    simp only [analyze_volume, if_pos hlen]
  · intro c h
    simp only [analyze_tempo, if_pos h]
  · intro c h
    simp only [analyze_rhythm, if_pos h]
  · intro c h1 h2
    simp only [analyze_rhythm, if_neg h1, if_pos h2]
  · intro c h1 h2 h3
    simp only [analyze_rhythm, if_neg h1, if_neg h2, if_pos h3]
  · intro c d h
    simp only [analyze_pauses, if_pos h]

set_option maxRecDepth 40000 in
/-- Witness for C8: each degenerate case instantiated at a concrete
contour, and both malformed inputs rejected with their named errors. -/
theorem C8_degenerate_reports_and_failfast_witness :
    (voicedValues [(0 : ℚ)] = [] ∧ (analyze_pitch [(0 : ℚ)]).score = 1)
  ∧ (volumeVals noDataContour = [] ∧ (analyze_volume noDataContour).score = 1)
  ∧ ((tempoSamples rhythmShortContour).length < 10 ∧
      (analyze_tempo rhythmShortContour).score = 5)
  ∧ ((rhythmSamples rhythmShortContour).length < 20 ∧
      (analyze_rhythm rhythmShortContour).score = 5)
  ∧ (¬ (rhythmSamples constant25Contour).length < 20 ∧
      (rhythmPeaks constant25Contour).length < 3 ∧
      (analyze_rhythm constant25Contour).feedback = .notEnoughSyllables)
  ∧ (¬ (rhythmSamples farPeaksContour).length < 20 ∧
      ¬ (rhythmPeaks farPeaksContour).length < 3 ∧
      (rhythmIntervalsOf farPeaksContour).length < 2 ∧
      (analyze_rhythm farPeaksContour).feedback = .couldNotCalculate)
  ∧ ((pauseSamples rhythmShortContour).length < 10 ∧
      (analyze_pauses rhythmShortContour 1).score = 5)
  ∧ (analyze_prosody_checked (-1) [] noDataContour 1 = .error .negative_sample_rate
     ∧ analyze_prosody_checked 16000 [] reversedContour 1 = .error .reversed_time_range) :=
  ⟨⟨by with_unfolding_all decide,
    by rw [C8_degenerate_reports_and_failfast.1 [(0 : ℚ)] (by with_unfolding_all decide)]⟩,
   ⟨by with_unfolding_all decide,
    by rw [C8_degenerate_reports_and_failfast.2.1 noDataContour
      (by with_unfolding_all decide)]⟩,
   ⟨by with_unfolding_all decide,
    by rw [C8_degenerate_reports_and_failfast.2.2.1 rhythmShortContour
      (by with_unfolding_all decide)]⟩,
   ⟨by with_unfolding_all decide,
    by rw [C8_degenerate_reports_and_failfast.2.2.2.1 rhythmShortContour
      (by with_unfolding_all decide)]⟩,
   ⟨by with_unfolding_all decide, by with_unfolding_all decide,
    by rw [C8_degenerate_reports_and_failfast.2.2.2.2.1 constant25Contour
      (by with_unfolding_all decide) (by with_unfolding_all decide)]⟩,
   ⟨by with_unfolding_all decide, by with_unfolding_all decide,
    by with_unfolding_all decide,
    by rw [C8_degenerate_reports_and_failfast.2.2.2.2.2.1 farPeaksContour
      (by with_unfolding_all decide) (by with_unfolding_all decide)
      (by with_unfolding_all decide)]⟩,
   ⟨by with_unfolding_all decide,
    by rw [C8_degenerate_reports_and_failfast.2.2.2.2.2.2.1 rhythmShortContour 1
      (by with_unfolding_all decide)]⟩,
   ⟨by
      rw [C8_degenerate_reports_and_failfast.2.2.2.2.2.2.2 (-1) [] noDataContour 1,
        if_pos (show (-1 : ℤ) < 0 by norm_num)],
    by
      rw [C8_degenerate_reports_and_failfast.2.2.2.2.2.2.2 16000 [] reversedContour 1,
        if_neg (show ¬ (16000 : ℤ) < 0 by norm_num),
        if_pos (show reversedContour.endTime < reversedContour.startTime by
          with_unfolding_all decide)]⟩⟩

/-- C9: in `analyze_volume`, the speech-sample set used for the
percentile statistics is the samples strictly above 40 dB; if fewer than
10 survive, the samples strictly above the 20th percentile of all
samples; and if that set is empty, the full sample set — hence it is
never empty when at least one valid sample exists. -/
theorem C9_volume_speech_set_nonempty :
    (∀ vals : List ℚ,
      speechValues vals =
        if 10 ≤ (vals.filter (fun v => 40 < v)).length then vals.filter (fun v => 40 < v)
        else if vals.filter (fun v => npPercentile vals 20 < v) = [] then vals
        else vals.filter (fun v => npPercentile vals 20 < v))
  ∧ (∀ vals : List ℚ, vals ≠ [] → speechValues vals ≠ [])
  ∧ (∀ c : IntensityContour, volumeVals c ≠ [] →
      (analyze_volume c).stress_contrast_db = pyRound (stressContrast (volumeVals c)) 1 ∧
      (analyze_volume c).min_db = pyRound (npPercentile (speechValues (volumeVals c)) 5) 1 ∧
      (analyze_volume c).max_db = pyRound (npPercentile (speechValues (volumeVals c)) 95) 1) := by
  have char : ∀ vals : List ℚ,
      speechValues vals =
        if 10 ≤ (vals.filter (fun v => 40 < v)).length then vals.filter (fun v => 40 < v)
        else if vals.filter (fun v => npPercentile vals 20 < v) = [] then vals
        else vals.filter (fun v => npPercentile vals 20 < v) := by
    intro vals
    simp only [speechValues]
    by_cases h1 : (vals.filter (fun v => 40 < v)).length < 10
    · rw [if_pos h1, if_neg (show ¬ 10 ≤ (vals.filter (fun v => 40 < v)).length by omega)]
      by_cases h2 : vals.filter (fun v => npPercentile vals 20 < v) = []
      · simp [h2]
      · rw [if_neg (show ¬ (vals.filter (fun v => npPercentile vals 20 < v)).length = 0 by
            simpa [List.length_eq_zero] using h2), if_neg h2]
    · rw [if_neg h1,
        if_neg (show ¬ (vals.filter (fun v => 40 < v)).length = 0 by omega),
        if_pos (show 10 ≤ (vals.filter (fun v => 40 < v)).length by omega)]
  refine ⟨char, ?_, ?_⟩
  · intro vals hne
    rw [char vals]
    split_ifs with h1 h2
    · intro he; rw [he] at h1; simp at h1
    · exact hne
    · exact h2
  · intro c hne
    have hlen : ¬ (volumeVals c).length = 0 := by
      simpa [List.length_eq_zero] using hne
    refine ⟨?_, ?_, ?_⟩ <;> simp [analyze_volume, hne, hlen, stressContrast]

set_option maxRecDepth 8000 in
/-- Witness for C9 at a singleton sample list and a 25-sample constant
contour. -/
theorem C9_volume_speech_set_nonempty_witness :
    ([(50 : ℚ)] ≠ [] ∧ speechValues [(50 : ℚ)] ≠ []) ∧
    (volumeVals constant25Contour ≠ [] ∧
      (analyze_volume constant25Contour).stress_contrast_db =
        pyRound (stressContrast (volumeVals constant25Contour)) 1) :=
  ⟨⟨by with_unfolding_all decide,
    C9_volume_speech_set_nonempty.2.1 [(50 : ℚ)] (by with_unfolding_all decide)⟩,
   ⟨by with_unfolding_all decide,
    (C9_volume_speech_set_nonempty.2.2 constant25Contour
      (by with_unfolding_all decide)).1⟩⟩

/-- C10: the pauses list of `analyze_pauses` is strictly ordered in time
with pairwise-disjoint intervals, every recorded interval lasts at least
0.2 s, the reported total is the sum of the interval durations rounded
to two decimals, the reported average is total/count (same rounding)
when any pause exists and 0 otherwise, and `pause_count` is the length
of the list. -/
theorem C10_pause_list_invariants :
    ∀ (c : IntensityContour) (d : ℚ),
      pausesChainB (analyze_pauses c d).pauses = true
    ∧ (analyze_pauses c d).pauses.all (fun p => decide ((0.2 : ℚ) ≤ p.2 - p.1)) = true
    ∧ (analyze_pauses c d).total_pause_duration =
        pyRound (sumDur (analyze_pauses c d).pauses) 2
    ∧ (analyze_pauses c d).avg_pause_duration =
        (if 0 < (analyze_pauses c d).pauses.length then
          pyRound (sumDur (analyze_pauses c d).pauses /
            ((analyze_pauses c d).pauses.length : ℚ)) 2
        else 0)
    ∧ (analyze_pauses c d).pause_count = (analyze_pauses c d).pauses.length := by
  intro c d
  by_cases h : (pauseSamples c).length < 10
  · simp only [analyze_pauses, if_pos h]
    refine ⟨?_, ?_, ?_, ?_, ?_⟩ <;>
      first
        | rfl
        | trivial
        | (with_unfolding_all decide)
  · refine ⟨?_, ?_, ?_, ?_, ?_⟩ <;>
      (simp only [analyze_pauses, if_neg h] <;>
        first
          | rfl
          | exact pausesOf_chain c
          | exact pauseAvg_round c
          | (rw [List.all_eq_true]; intro p hp
             exact decide_eq_true (pausesOf_min_dur c p hp)))
